import Mathlib

/-!
Shallow embedding of the Solana escrow program (src/program/src/processor.rs)
for verifying the natural-language specification against the code.

Modelling conventions:
- Account identities (Solana Pubkey values) are modelled as natural numbers.
- Lamport balances and token amounts are unsigned 64-bit values, modelled as
  Nat together with an explicit bound U64_MAX where overflow matters
  (checked_add is the only arithmetic the program performs on balances).
- Each handler is a pure function from its inputs (the positional account
  list, the instruction amount, the program id) to
  Except ProgramError Result, where the Result records the writes the handler
  performs and the external token-program instructions it invokes, in order.
  An error result means the host discards every write of the attempt, so an
  erroring run leaves all accounts unchanged.
- Pubkey.find_program_address is an external hash-based derivation; it is
  passed in as an explicit function parameter fpa, so theorems quantify over
  every possible derivation function.
-/

/-- Account identity (Solana Pubkey), modelled as a natural number. -/
abbrev Pubkey := Nat

/-- The fixed identity of the external SPL token program (spl_token id),
an arbitrary distinguished address in this model. -/
def splTokenId : Pubkey := 999

/-- The bytes of the fixed seed b"escrow" used for program address
derivation in all three handlers. -/
def escrowSeed : List Nat := [101, 115, 99, 114, 111, 119]

/-- The error kinds the program can surface. Solana ProgramError and the
custom EscrowError variants (NotRentExempt, ExpectedAmountMismatch,
AmountOverflow, which the source converts into ProgramError custom codes)
are merged into one type. -/
inductive ProgramError where
  | InvalidInstruction
  | NotEnoughAccountKeys
  | MissingRequiredSignature
  | IncorrectProgramId
  | NotRentExempt
  | AccountAlreadyInitialized
  | InvalidAccountData
  | UninitializedAccount
  | ExpectedAmountMismatch
  | AmountOverflow
  deriving DecidableEq, Repr

/-- SPL token account state; only the amount field is read by the program
(spl_token state Account, external, modelled at its interface). -/
structure TokenAccount where
  amount : Nat
  deriving DecidableEq, Repr

/-- Modelled from the spec: the escrow record layout (src state.rs is not
under src/; spec section 3 gives the fields and section 8 the pack/unpack
round-trip). Field names follow the source symbols quoted by the spec. -/
structure Escrow where
  is_initialized : Bool
  initializer_pubkey : Pubkey
  temp_token_account_pubkey : Pubkey
  initializer_token_to_receive_account_pubkey : Pubkey
  expected_amount : Nat
  deriving DecidableEq, Repr

/-- The rent sysvar, modelled at its interface: a predicate deciding whether
a balance is exemption-sufficient for a data size (external oracle). -/
structure Rent where
  is_exempt : Nat → Nat → Bool

/-- The typed content of the byte buffer backing an account: a token
account, an escrow record, the rent sysvar, or anything else. -/
inductive AccountData where
  | token (t : TokenAccount)
  | escrow (e : Escrow)
  | rent (r : Rent)
  | other

/-- One entry of the positional account slice handed to a handler
(solana AccountInfo, restricted to the fields the program reads). dataLen
models data_len() of the raw buffer. -/
structure AccountInfo where
  key : Pubkey
  is_signer : Bool
  lamports : Nat
  owner : Pubkey
  data : AccountData
  dataLen : Nat

/-- next_account_info: pop the next account off the positional slice,
failing with NotEnoughAccountKeys when the slice is exhausted. -/
def next_account_info :
    List AccountInfo → Except ProgramError (AccountInfo × List AccountInfo)
  | [] => .error .NotEnoughAccountKeys
  | a :: rest => .ok (a, rest)

/-- TokenAccount unpack (spl_token Pack, external): succeeds when the buffer
holds a token account, otherwise InvalidAccountData. -/
def TokenAccount.unpack : AccountData → Except ProgramError TokenAccount
  | .token t => .ok t
  | _ => .error .InvalidAccountData

/-- Modelled from the spec: Escrow unpack_unchecked (state.rs is not under
src/): deserializes the record without the initialized check. -/
def Escrow.unpack_unchecked : AccountData → Except ProgramError Escrow
  | .escrow e => .ok e
  | _ => .error .InvalidAccountData

/-- Modelled from the spec: Escrow unpack via the Pack trait (state.rs is
not under src/): additionally requires the record to be initialized. -/
def Escrow.unpack (d : AccountData) : Except ProgramError Escrow := do
  let e ← Escrow.unpack_unchecked d
  if e.is_initialized then pure e else throw .UninitializedAccount

/-- Rent from_account_info (external sysvar): succeeds when the account
holds the rent sysvar. -/
def Rent.from_account_info : AccountData → Except ProgramError Rent
  | .rent r => .ok r
  | _ => .error .InvalidAccountData

/-- Largest unsigned 64-bit value; lamports and token amounts are u64. -/
def U64_MAX : Nat := 2 ^ 64 - 1

/-- u64 checked_add: none exactly when the mathematical sum overflows. -/
def checked_add (a b : Nat) : Option Nat :=
  if a + b ≤ U64_MAX then some (a + b) else none

/-- An instruction addressed to the external SPL token program. -/
inductive TokenIx where
  | transfer (source dest authority : Pubkey) (signer_keys : List Pubkey)
      (amount : Nat)
  | set_authority (account : Pubkey) (new_authority : Option Pubkey)
      (current_authority : Pubkey) (signer_keys : List Pubkey)
  | close_account (account dest authority : Pubkey) (signer_keys : List Pubkey)
  deriving DecidableEq, Repr

/-- spl_token instruction transfer constructor (external): validates the
token program id, as check_program_account does. -/
def spl_transfer (token_program_id source dest authority : Pubkey)
    (signer_keys : List Pubkey) (amount : Nat) : Except ProgramError TokenIx :=
  if token_program_id = splTokenId then
    .ok (.transfer source dest authority signer_keys amount)
  else .error .IncorrectProgramId

/-- spl_token instruction set_authority constructor (external). -/
def spl_set_authority (token_program_id account : Pubkey)
    (new_authority : Option Pubkey) (current_authority : Pubkey)
    (signer_keys : List Pubkey) : Except ProgramError TokenIx :=
  if token_program_id = splTokenId then
    .ok (.set_authority account new_authority current_authority signer_keys)
  else .error .IncorrectProgramId

/-- spl_token instruction close_account constructor (external). -/
def spl_close_account (token_program_id account dest authority : Pubkey)
    (signer_keys : List Pubkey) : Except ProgramError TokenIx :=
  if token_program_id = splTokenId then
    .ok (.close_account account dest authority signer_keys)
  else .error .IncorrectProgramId

/-- One cross-program invocation issued by a handler: the token instruction
together with the program-derived signer seeds (empty for a plain invoke,
the escrow seed plus nonce for invoke_signed). -/
structure Cpi where
  ix : TokenIx
  signer_seeds : List (List Nat)
  deriving DecidableEq, Repr

/-- The type of Pubkey find_program_address: from a seed list and a program
id to a derived address and a bump nonce. The real derivation is an
external hash computation; handlers receive it as a parameter. -/
abbrev Fpa := List (List Nat) → Pubkey → Pubkey × Nat

/-- Writes and invocations a successful process_init_escrow performs: the
escrow record packed into the escrow account storage, the derived program
address, and the CPIs issued in order. -/
structure InitResult where
  escrow_written : Escrow
  pda : Pubkey
  cpis : List Cpi
  deriving DecidableEq, Repr

/-- Writes and invocations a successful process_deposit performs. The
handler writes no account state of its own; it records the derived program
address and nonce it computed and the CPIs it issued. -/
structure DepositResult where
  pda : Pubkey
  nonce : Nat
  cpis : List Cpi
  deriving DecidableEq, Repr

/-- Writes and invocations a successful process_withdraw performs: the CPIs
issued in order, the final lamport balances it assigns to the initializer
main account and the escrow record account, and the final data length of
the escrow record account. -/
structure WithdrawResult where
  pda : Pubkey
  cpis : List Cpi
  initializer_lamports : Nat
  escrow_lamports : Nat
  escrow_data_len : Nat
  deriving DecidableEq, Repr

/-- process_init_escrow, translated statement by statement from
processor.rs lines 41 to 106. Accounts are consumed positionally:
initializer, temp token account, token-to-receive account, escrow account,
rent sysvar, token program. -/
def process_init_escrow (fpa : Fpa) (accounts : List AccountInfo)
    (amount : Nat) (program_id : Pubkey) : Except ProgramError InitResult := do
  let (initializer, rest) ← next_account_info accounts
  if !initializer.is_signer then throw ProgramError.MissingRequiredSignature
  let (temp_token_account, rest) ← next_account_info rest
  let (token_to_receive_account, rest) ← next_account_info rest
  if token_to_receive_account.owner ≠ splTokenId then
    throw ProgramError.IncorrectProgramId
  let (escrow_account, rest) ← next_account_info rest
  let (rent_account, rest) ← next_account_info rest
  let rent ← Rent.from_account_info rent_account.data
  if !(rent.is_exempt escrow_account.lamports escrow_account.dataLen) then
    throw ProgramError.NotRentExempt
  let escrow_info ← Escrow.unpack_unchecked escrow_account.data
  if escrow_info.is_initialized then
    throw ProgramError.AccountAlreadyInitialized
  let escrow_info : Escrow :=
    { is_initialized := true
      initializer_pubkey := initializer.key
      temp_token_account_pubkey := temp_token_account.key
      initializer_token_to_receive_account_pubkey := token_to_receive_account.key
      expected_amount := amount }
  let (pda, _nonce) := fpa [escrowSeed] program_id
  let (token_program, _rest) ← next_account_info rest
  let owner_change_ix ← spl_set_authority token_program.key
    temp_token_account.key (some pda) initializer.key [initializer.key]
  pure { escrow_written := escrow_info
         pda := pda
         cpis := [{ ix := owner_change_ix, signer_seeds := [] }] }

/-- process_deposit (the Exchange handler), translated statement by
statement from processor.rs lines 108 to 231. Accounts consumed
positionally: taker, taker sending token account, pda temp token account,
initializer main account, escrow account, token program. The fulfillment
steps of the spec (amount validation, transfer to the taker, closing the
temp account and the escrow record) are commented out in the source and
therefore absent here. -/
def process_deposit (fpa : Fpa) (accounts : List AccountInfo)
    (amount_deposit : Nat) (program_id : Pubkey) :
    Except ProgramError DepositResult := do
  let (taker, rest) ← next_account_info accounts
  if !taker.is_signer then throw ProgramError.MissingRequiredSignature
  let (takers_sending_token_account, rest) ← next_account_info rest
  let (pdas_temp_token_account, rest) ← next_account_info rest
  let _pdas_temp_token_account_info ←
    TokenAccount.unpack pdas_temp_token_account.data
  let (pda, nonce) := fpa [escrowSeed] program_id
  let (initializers_main_account, rest) ← next_account_info rest
  let (escrow_account, rest) ← next_account_info rest
  let escrow_info ← Escrow.unpack escrow_account.data
  if escrow_info.temp_token_account_pubkey ≠ pdas_temp_token_account.key then
    throw ProgramError.InvalidAccountData
  if escrow_info.initializer_pubkey ≠ initializers_main_account.key then
    throw ProgramError.InvalidAccountData
  let (token_program, _rest) ← next_account_info rest
  let transfer_to_initializer_ix ← spl_transfer token_program.key
    takers_sending_token_account.key pdas_temp_token_account.key
    taker.key [taker.key] amount_deposit
  pure { pda := pda
         nonce := nonce
         cpis := [{ ix := transfer_to_initializer_ix, signer_seeds := [] }] }

/-- process_withdraw (the Cancel handler), translated statement by
statement from processor.rs lines 233 to 306. Accounts consumed
positionally: pda temp token account, initializer main account, initializer
token-to-receive account, escrow account, token program, pda account. The
instruction payload amount_withdraw is never read by the body, exactly as
in the source. -/
def process_withdraw (fpa : Fpa) (accounts : List AccountInfo)
    (amount_withdraw : Nat) (program_id : Pubkey) :
    Except ProgramError WithdrawResult := do
  let (pdas_temp_token_account, rest) ← next_account_info accounts
  let pdas_temp_token_account_info ←
    TokenAccount.unpack pdas_temp_token_account.data
  let (pda, nonce) := fpa [escrowSeed] program_id
  let (initializers_main_account, rest) ← next_account_info rest
  let (initializers_token_to_receive_account, rest) ← next_account_info rest
  let (escrow_account, rest) ← next_account_info rest
  let escrow_info ← Escrow.unpack escrow_account.data
  if escrow_info.temp_token_account_pubkey ≠ pdas_temp_token_account.key then
    throw ProgramError.InvalidAccountData
  if escrow_info.initializer_pubkey ≠ initializers_main_account.key then
    throw ProgramError.InvalidAccountData
  let (token_program, rest) ← next_account_info rest
  let (_pda_account, _rest) ← next_account_info rest
  let transfer_to_initializer_ix ← spl_transfer token_program.key
    pdas_temp_token_account.key initializers_token_to_receive_account.key
    pda [pda] pdas_temp_token_account_info.amount
  let close_pdas_temp_acc_ix ← spl_close_account token_program.key
    pdas_temp_token_account.key initializers_main_account.key pda [pda]
  let new_initializer_lamports ←
    match checked_add initializers_main_account.lamports
        escrow_account.lamports with
    | some v => pure v
    | none => throw ProgramError.AmountOverflow
  pure { pda := pda
         cpis := [{ ix := transfer_to_initializer_ix
                    signer_seeds := [escrowSeed, [nonce]] },
                  { ix := close_pdas_temp_acc_ix
                    signer_seeds := [escrowSeed, [nonce]] }]
         initializer_lamports := new_initializer_lamports
         escrow_lamports := 0
         escrow_data_len := 0 }

/-! Reduction lemmas for the Except monad, used to unfold the handlers. -/

@[simp] theorem except_bind_ok {ε α β : Type} (a : α) (f : α → Except ε β) :
    (Except.ok a >>= f : Except ε β) = f a := rfl

@[simp] theorem except_bind_err {ε α β : Type} (e : ε) (f : α → Except ε β) :
    (Except.error e >>= f : Except ε β) = .error e := rfl

@[simp] theorem except_pure_eq {ε α : Type} (a : α) :
    (pure a : Except ε α) = .ok a := rfl

@[simp] theorem except_throw_eq {ε α : Type} (e : ε) :
    (throw e : Except ε α) = .error e := rfl

@[simp] theorem except_map_ok {ε α β : Type} (f : α → β) (a : α) :
    (f <$> (Except.ok a : Except ε α)) = .ok (f a) := rfl

@[simp] theorem except_map_err {ε α β : Type} (f : α → β) (e : ε) :
    (f <$> (Except.error e : Except ε α)) = .error e := rfl

/-! General lemmas about the handlers. -/

/-- When every validation step passes, process_withdraw issues exactly two
program-signed CPIs (the transfer of the full held token balance to the
supplied receive account and the close of the holding account refunding the
initializer) and then credits the escrow record lamports to the
initializer, zeroing the record. -/
theorem withdraw_ok_spec (fpa : Fpa) (temp initMain recv escrowA tokProg pdaAcct : AccountInfo)
    (rest : List AccountInfo) (amt pid : Nat) (tok : TokenAccount) (e : Escrow)
    (htd : temp.data = .token tok) (hed : escrowA.data = .escrow e)
    (hinit : e.is_initialized = true)
    (h1 : e.temp_token_account_pubkey = temp.key)
    (h2 : e.initializer_pubkey = initMain.key)
    (htp : tokProg.key = splTokenId)
    (hov : initMain.lamports + escrowA.lamports ≤ U64_MAX) :
    process_withdraw fpa ([temp, initMain, recv, escrowA, tokProg, pdaAcct] ++ rest) amt pid =
      .ok { pda := (fpa [escrowSeed] pid).1
            cpis := [{ ix := .transfer temp.key recv.key (fpa [escrowSeed] pid).1
                         [(fpa [escrowSeed] pid).1] tok.amount,
                       signer_seeds := [escrowSeed, [(fpa [escrowSeed] pid).2]] },
                     { ix := .close_account temp.key initMain.key (fpa [escrowSeed] pid).1
                         [(fpa [escrowSeed] pid).1],
                       signer_seeds := [escrowSeed, [(fpa [escrowSeed] pid).2]] }]
            initializer_lamports := initMain.lamports + escrowA.lamports
            escrow_lamports := 0
            escrow_data_len := 0 } := by
  rcases hfpa : fpa [escrowSeed] pid with ⟨p, n⟩
  simp [process_withdraw, next_account_info, TokenAccount.unpack, Escrow.unpack,
        Escrow.unpack_unchecked, spl_transfer, spl_close_account, checked_add,
        htd, hed, hinit, h1, h2, htp, hov, hfpa]

/-- When every validation step passes, process_deposit issues exactly one
CPI: a transfer of the instruction amount from the taker sending account to
the pda temp token account, authorized by the taker key alone, with no
program signer seeds. -/
theorem deposit_ok_spec (fpa : Fpa) (taker sending temp initMain escrowA tokProg : AccountInfo)
    (rest : List AccountInfo) (amount pid : Nat) (tok : TokenAccount) (e : Escrow)
    (hts : taker.is_signer = true)
    (htd : temp.data = .token tok) (hed : escrowA.data = .escrow e)
    (hinit : e.is_initialized = true)
    (h1 : e.temp_token_account_pubkey = temp.key)
    (h2 : e.initializer_pubkey = initMain.key)
    (htp : tokProg.key = splTokenId) :
    process_deposit fpa ([taker, sending, temp, initMain, escrowA, tokProg] ++ rest) amount pid =
      .ok { pda := (fpa [escrowSeed] pid).1
            nonce := (fpa [escrowSeed] pid).2
            cpis := [{ ix := .transfer sending.key temp.key taker.key [taker.key] amount,
                       signer_seeds := [] }] } := by
  rcases hfpa : fpa [escrowSeed] pid with ⟨p, n⟩
  simp [process_deposit, next_account_info, TokenAccount.unpack, Escrow.unpack,
        Escrow.unpack_unchecked, spl_transfer, hts, htd, hed, hinit, h1, h2, htp, hfpa]

/-- When every validation step passes on an uninitialized record,
process_init_escrow writes the populated record and issues the single
set_authority CPI delegating the temp account to the derived address. -/
theorem init_ok_spec (fpa : Fpa) (initializer temp recv escrowA rentA tokProg : AccountInfo)
    (rest : List AccountInfo) (amount pid : Nat) (r : Rent) (e : Escrow)
    (hs : initializer.is_signer = true)
    (hro : recv.owner = splTokenId)
    (hrd : rentA.data = .rent r)
    (hex : r.is_exempt escrowA.lamports escrowA.dataLen = true)
    (hed : escrowA.data = .escrow e)
    (hinit : e.is_initialized = false)
    (htp : tokProg.key = splTokenId) :
    process_init_escrow fpa ([initializer, temp, recv, escrowA, rentA, tokProg] ++ rest) amount pid =
      .ok { escrow_written :=
              { is_initialized := true
                initializer_pubkey := initializer.key
                temp_token_account_pubkey := temp.key
                initializer_token_to_receive_account_pubkey := recv.key
                expected_amount := amount }
            pda := (fpa [escrowSeed] pid).1
            cpis := [{ ix := .set_authority temp.key (some (fpa [escrowSeed] pid).1)
                         initializer.key [initializer.key],
                       signer_seeds := [] }] } := by
  rcases hfpa : fpa [escrowSeed] pid with ⟨p, n⟩
  simp [process_init_escrow, next_account_info, Rent.from_account_info,
        Escrow.unpack_unchecked, spl_set_authority, hs, hro, hrd, hex, hed, hinit,
        htp, hfpa]

/-- A mismatch of either stored identity makes process_withdraw fail with
InvalidAccountData. -/
theorem withdraw_mismatch_spec (fpa : Fpa)
    (temp initMain recv escrowA tokProg pdaAcct : AccountInfo)
    (rest : List AccountInfo) (amt pid : Nat) (tok : TokenAccount) (e : Escrow)
    (htd : temp.data = .token tok) (hed : escrowA.data = .escrow e)
    (hinit : e.is_initialized = true)
    (hmis : e.temp_token_account_pubkey ≠ temp.key ∨ e.initializer_pubkey ≠ initMain.key) :
    process_withdraw fpa ([temp, initMain, recv, escrowA, tokProg, pdaAcct] ++ rest) amt pid =
      .error .InvalidAccountData := by
  rcases hfpa : fpa [escrowSeed] pid with ⟨p, n⟩
  by_cases h1 : e.temp_token_account_pubkey = temp.key
  · rcases hmis with hm | hm
    · exact absurd h1 hm
    · simp [process_withdraw, next_account_info, TokenAccount.unpack, Escrow.unpack,
            Escrow.unpack_unchecked, htd, hed, hinit, hfpa, h1, hm]
  · simp [process_withdraw, next_account_info, TokenAccount.unpack, Escrow.unpack,
          Escrow.unpack_unchecked, htd, hed, hinit, hfpa, h1]

/-- A mismatch of either stored identity makes process_deposit fail with
InvalidAccountData. -/
theorem deposit_mismatch_spec (fpa : Fpa)
    (taker sending temp initMain escrowA tokProg : AccountInfo)
    (rest : List AccountInfo) (amount pid : Nat) (tok : TokenAccount) (e : Escrow)
    (hts : taker.is_signer = true)
    (htd : temp.data = .token tok) (hed : escrowA.data = .escrow e)
    (hinit : e.is_initialized = true)
    (hmis : e.temp_token_account_pubkey ≠ temp.key ∨ e.initializer_pubkey ≠ initMain.key) :
    process_deposit fpa ([taker, sending, temp, initMain, escrowA, tokProg] ++ rest) amount pid =
      .error .InvalidAccountData := by
  rcases hfpa : fpa [escrowSeed] pid with ⟨p, n⟩
  by_cases h1 : e.temp_token_account_pubkey = temp.key
  · rcases hmis with hm | hm
    · exact absurd h1 hm
    · simp [process_deposit, next_account_info, TokenAccount.unpack, Escrow.unpack,
            Escrow.unpack_unchecked, hts, htd, hed, hinit, hfpa, h1, hm]
  · simp [process_deposit, next_account_info, TokenAccount.unpack, Escrow.unpack,
          Escrow.unpack_unchecked, hts, htd, hed, hinit, hfpa, h1]

/-- When both stored identities match, process_withdraw never fails with
InvalidAccountData: whatever happens later is a success or a different
error (NotEnoughAccountKeys, IncorrectProgramId, AmountOverflow). -/
theorem withdraw_match_no_iad (fpa : Fpa)
    (temp initMain recv escrowA tokProg pdaAcct : AccountInfo)
    (rest : List AccountInfo) (amt pid : Nat) (tok : TokenAccount) (e : Escrow)
    (htd : temp.data = .token tok) (hed : escrowA.data = .escrow e)
    (hinit : e.is_initialized = true)
    (h1 : e.temp_token_account_pubkey = temp.key)
    (h2 : e.initializer_pubkey = initMain.key) :
    process_withdraw fpa ([temp, initMain, recv, escrowA, tokProg, pdaAcct] ++ rest) amt pid ≠
      .error .InvalidAccountData := by
  rcases hfpa : fpa [escrowSeed] pid with ⟨p, n⟩
  by_cases htp : tokProg.key = splTokenId
  · by_cases hov : initMain.lamports + escrowA.lamports ≤ U64_MAX
    · simp [process_withdraw, next_account_info, TokenAccount.unpack, Escrow.unpack,
            Escrow.unpack_unchecked, spl_transfer, spl_close_account, checked_add,
            htd, hed, hinit, h1, h2, htp, hov, hfpa]
    · simp [process_withdraw, next_account_info, TokenAccount.unpack, Escrow.unpack,
            Escrow.unpack_unchecked, spl_transfer, spl_close_account, checked_add,
            htd, hed, hinit, h1, h2, htp, hov, hfpa]
  · simp [process_withdraw, next_account_info, TokenAccount.unpack, Escrow.unpack,
          Escrow.unpack_unchecked, spl_transfer, spl_close_account,
          htd, hed, hinit, h1, h2, htp, hfpa]

/-- When both stored identities match, process_deposit never fails with
InvalidAccountData. -/
theorem deposit_match_no_iad (fpa : Fpa)
    (taker sending temp initMain escrowA tokProg : AccountInfo)
    (rest : List AccountInfo) (amount pid : Nat) (tok : TokenAccount) (e : Escrow)
    (hts : taker.is_signer = true)
    (htd : temp.data = .token tok) (hed : escrowA.data = .escrow e)
    (hinit : e.is_initialized = true)
    (h1 : e.temp_token_account_pubkey = temp.key)
    (h2 : e.initializer_pubkey = initMain.key) :
    process_deposit fpa ([taker, sending, temp, initMain, escrowA, tokProg] ++ rest) amount pid ≠
      .error .InvalidAccountData := by
  rcases hfpa : fpa [escrowSeed] pid with ⟨p, n⟩
  by_cases htp : tokProg.key = splTokenId
  · simp [process_deposit, next_account_info, TokenAccount.unpack, Escrow.unpack,
          Escrow.unpack_unchecked, spl_transfer, hts, htd, hed, hinit, h1, h2, htp, hfpa]
  · simp [process_deposit, next_account_info, TokenAccount.unpack, Escrow.unpack,
          Escrow.unpack_unchecked, spl_transfer, hts, htd, hed, hinit, h1, h2, htp, hfpa]

/-- When the checked addition of the initializer and escrow lamports
overflows u64, process_withdraw fails with AmountOverflow. -/
theorem withdraw_overflow_spec (fpa : Fpa)
    (temp initMain recv escrowA tokProg pdaAcct : AccountInfo)
    (rest : List AccountInfo) (amt pid : Nat) (tok : TokenAccount) (e : Escrow)
    (htd : temp.data = .token tok) (hed : escrowA.data = .escrow e)
    (hinit : e.is_initialized = true)
    (h1 : e.temp_token_account_pubkey = temp.key)
    (h2 : e.initializer_pubkey = initMain.key)
    (htp : tokProg.key = splTokenId)
    (hov : U64_MAX < initMain.lamports + escrowA.lamports) :
    process_withdraw fpa ([temp, initMain, recv, escrowA, tokProg, pdaAcct] ++ rest) amt pid =
      .error .AmountOverflow := by
  rcases hfpa : fpa [escrowSeed] pid with ⟨p, n⟩
  have hno : ¬ (initMain.lamports + escrowA.lamports ≤ U64_MAX) := by omega
  simp [process_withdraw, next_account_info, TokenAccount.unpack, Escrow.unpack,
        Escrow.unpack_unchecked, spl_transfer, spl_close_account, checked_add,
        htd, hed, hinit, h1, h2, htp, hno, hfpa]

/-- Removing the signer flag of an account; process_withdraw never reads
it, which the next lemma makes precise. -/
def scrub (a : AccountInfo) : AccountInfo := { a with is_signer := false }

/-- Two account lists supplied to a handler differ only in their signer
flags when corresponding entries agree on every field except is_signer. -/
def sameExceptSigner (a b : AccountInfo) : Prop :=
  a.key = b.key ∧ a.lamports = b.lamports ∧ a.owner = b.owner ∧
  a.data = b.data ∧ a.dataLen = b.dataLen

theorem scrub_eq_of_sameExceptSigner {a b : AccountInfo} (h : sameExceptSigner a b) :
    scrub a = scrub b := by
  obtain ⟨hk, hl, ho, hd, hdl⟩ := h
  simp [scrub, AccountInfo.mk.injEq, hk, hl, ho, hd, hdl]

/-- process_withdraw reads no signer flag: scrubbing every flag leaves the
result unchanged. -/
theorem withdraw_scrub (fpa : Fpa) (amt pid : Nat) (as : List AccountInfo) :
    process_withdraw fpa (as.map scrub) amt pid = process_withdraw fpa as amt pid := by
  rcases as with _ | ⟨a1, as⟩
  · rfl
  rcases as with _ | ⟨a2, as⟩
  · simp [process_withdraw, next_account_info, scrub]
  rcases as with _ | ⟨a3, as⟩
  · simp [process_withdraw, next_account_info, scrub]
  rcases as with _ | ⟨a4, as⟩
  · simp [process_withdraw, next_account_info, scrub]
  rcases as with _ | ⟨a5, as⟩
  · simp [process_withdraw, next_account_info, scrub]
  rcases as with _ | ⟨a6, as⟩
  · simp [process_withdraw, next_account_info, scrub]
  simp [process_withdraw, next_account_info, scrub]

theorem forall2_scrub {as1 as2 : List AccountInfo}
    (h : List.Forall₂ sameExceptSigner as1 as2) : as1.map scrub = as2.map scrub := by
  induction h with
  | nil => rfl
  | cons hab _ ih => simp [List.map, scrub_eq_of_sameExceptSigner hab, ih]

/-- Every successful process_withdraw run carries the address derived from
the fixed escrow seed and the program id, whatever the accounts were. -/
theorem withdraw_pda_any (fpa : Fpa) (accounts : List AccountInfo) (amt pid : Nat)
    (r : WithdrawResult) (h : process_withdraw fpa accounts amt pid = .ok r) :
    r.pda = (fpa [escrowSeed] pid).1 := by
  rcases hfpa : fpa [escrowSeed] pid with ⟨p, n⟩
  simp only [process_withdraw, hfpa] at h
  repeat' (first
    | (split at h)
    | (simp only [except_bind_ok, except_bind_err, except_pure_eq, except_throw_eq,
        except_map_ok, except_map_err, next_account_info, TokenAccount.unpack,
        Escrow.unpack, Escrow.unpack_unchecked, spl_transfer, spl_close_account,
        checked_add] at h))
  all_goals (try simp_all)
  rw [← h]

/-- Every successful process_deposit run carries the address derived from
the fixed escrow seed and the program id, whatever the accounts were. -/
theorem deposit_pda_any (fpa : Fpa) (accounts : List AccountInfo) (amount pid : Nat)
    (r : DepositResult) (h : process_deposit fpa accounts amount pid = .ok r) :
    r.pda = (fpa [escrowSeed] pid).1 := by
  rcases hfpa : fpa [escrowSeed] pid with ⟨p, n⟩
  simp only [process_deposit, hfpa] at h
  repeat' (first
    | (split at h)
    | (simp only [except_bind_ok, except_bind_err, except_pure_eq, except_throw_eq,
        except_map_ok, except_map_err, next_account_info, TokenAccount.unpack,
        Escrow.unpack, Escrow.unpack_unchecked, spl_transfer] at h))
  all_goals (try simp_all)
  rw [← h]

/-- Every successful process_init_escrow run carries the address derived
from the fixed escrow seed and the program id, whatever the accounts were. -/
theorem init_pda_any (fpa : Fpa) (accounts : List AccountInfo) (amount pid : Nat)
    (r : InitResult) (h : process_init_escrow fpa accounts amount pid = .ok r) :
    r.pda = (fpa [escrowSeed] pid).1 := by
  rcases hfpa : fpa [escrowSeed] pid with ⟨p, n⟩
  simp only [process_init_escrow, hfpa] at h
  repeat' (first
    | (split at h)
    | (simp only [except_bind_ok, except_bind_err, except_pure_eq, except_throw_eq,
        except_map_ok, except_map_err, next_account_info, Rent.from_account_info,
        Escrow.unpack_unchecked, spl_set_authority] at h))
  all_goals (try simp_all)
  rw [← h]

/-! Concrete sample accounts used by the witnesses: an active escrow record
for initializer 10 (temp holding account 20, receive account 30, expected
amount 50), the matching accounts, and mismatched variants. -/

def fpa0 : Fpa := fun _ p => (p + 1000, 254)

def tok0 : TokenAccount := { amount := 100 }

def esc0 : Escrow :=
  { is_initialized := true
    initializer_pubkey := 10
    temp_token_account_pubkey := 20
    initializer_token_to_receive_account_pubkey := 30
    expected_amount := 50 }

/-- Same record with a different initializer identity, for mismatch runs. -/
def esc1 : Escrow := { esc0 with initializer_pubkey := 11 }

def escU : Escrow :=
  { is_initialized := false
    initializer_pubkey := 0
    temp_token_account_pubkey := 0
    initializer_token_to_receive_account_pubkey := 0
    expected_amount := 0 }

def rent0 : Rent := { is_exempt := fun _ _ => true }

def acctTaker : AccountInfo :=
  { key := 60, is_signer := true, lamports := 500, owner := 0, data := .other, dataLen := 0 }

def acctTakerSend : AccountInfo :=
  { key := 61, is_signer := false, lamports := 400, owner := splTokenId,
    data := .token { amount := 75 }, dataLen := 165 }

def acctTemp : AccountInfo :=
  { key := 20, is_signer := false, lamports := 7, owner := splTokenId,
    data := .token tok0, dataLen := 165 }

def acctMain : AccountInfo :=
  { key := 10, is_signer := false, lamports := 1000, owner := 0, data := .other, dataLen := 0 }

def acctMainBig : AccountInfo := { acctMain with lamports := U64_MAX }

/-- A receive account whose key 31 differs from the identity 30 stored in
the record. -/
def acctRecv : AccountInfo :=
  { key := 31, is_signer := false, lamports := 3, owner := splTokenId,
    data := .other, dataLen := 165 }

def acctEscrow : AccountInfo :=
  { key := 40, is_signer := false, lamports := 5, owner := 0,
    data := .escrow esc0, dataLen := 105 }

def acctEscrow1 : AccountInfo := { acctEscrow with data := .escrow esc1 }

def acctEscrowU : AccountInfo :=
  { key := 41, is_signer := false, lamports := 5, owner := 0,
    data := .escrow escU, dataLen := 105 }

def acctRent : AccountInfo :=
  { key := 90, is_signer := false, lamports := 1, owner := 0,
    data := .rent rent0, dataLen := 17 }

def acctTokenProg : AccountInfo :=
  { key := splTokenId, is_signer := false, lamports := 1, owner := 0,
    data := .other, dataLen := 0 }

def acctPda : AccountInfo :=
  { key := 99, is_signer := false, lamports := 0, owner := 0, data := .other, dataLen := 0 }

def acctInit : AccountInfo :=
  { key := 10, is_signer := true, lamports := 1000, owner := 0, data := .other, dataLen := 0 }

/-! The claims. -/

/-- C1. The claim states that a successful Exchange closes the temporary
holding account and the escrow record (storage zeroed, both deposits
credited to the initializer). The code does not: this concrete successful
process_deposit run issues exactly one CPI, a token transfer, with no
close_account instruction, no lamport assignment and no storage clearing
(the DepositResult records every write and invocation the handler
performs). The closing steps exist only as commented-out code in the
source, so the temp account and the record stay open after Exchange. -/
theorem exchange_success_closes_nothing :
    process_deposit fpa0
      [acctTaker, acctTakerSend, acctTemp, acctMain, acctEscrow, acctTokenProg] 50 77 =
      .ok { pda := 1077, nonce := 254,
            cpis := [{ ix := .transfer 61 20 60 [60] 50, signer_seeds := [] }] } := rfl

/-- C2. The claim states that on a validated Exchange the counter-asset
amount moves from the taker source account to the initializer. The code
instead sends it to the pda temp token account (key 20), which is not the
initializer (key 10), even though the variable name and the log line in
the source say the transfer goes to the initializer. The authorization
half of the claim is accurate: the transfer authority is the taker key
with the taker own signature and no program signer seeds. -/
theorem exchange_transfer_destination_not_initializer :
    acctTemp.key ≠ esc0.initializer_pubkey ∧
    process_deposit fpa0
      [acctTaker, acctTakerSend, acctTemp, acctMain, acctEscrow, acctTokenProg] 50 77 =
      .ok { pda := 1077, nonce := 254,
            cpis := [{ ix := .transfer acctTakerSend.key acctTemp.key acctTaker.key
                         [acctTaker.key] 50, signer_seeds := [] }] } :=
  ⟨by decide, rfl⟩

/-- C3. The claim states Exchange fails with AmountMismatch whenever the
supplied amount differs from expected_amount. The code never reads
expected_amount (the check is commented out in the source): here the
record expects 50 but the call supplies 49 and still succeeds, performing
the transfer of 49. -/
theorem exchange_accepts_mismatched_amount :
    (49 : Nat) ≠ esc0.expected_amount ∧
    process_deposit fpa0
      [acctTaker, acctTakerSend, acctTemp, acctMain, acctEscrow, acctTokenProg] 49 77 =
      .ok { pda := 1077, nonce := 254,
            cpis := [{ ix := .transfer 61 20 60 [60] 49, signer_seeds := [] }] } :=
  ⟨by decide, rfl⟩

/-- C4. Cancel/Withdraw validates purely by identity comparison and never
reads any is_signer flag: two calls whose account lists agree on every
field except the signer flags produce identical results and effects (the
result value records every CPI and every write). -/
theorem withdraw_independent_of_signer_flags (fpa : Fpa) (amt pid : Nat)
    {as1 as2 : List AccountInfo} (h : List.Forall₂ sameExceptSigner as1 as2) :
    process_withdraw fpa as1 amt pid = process_withdraw fpa as2 amt pid := by
  rw [← withdraw_scrub fpa amt pid as1, forall2_scrub h, withdraw_scrub]

/-- C4 witness: flipping the signer flags of three of the six accounts
changes nothing in the result of a concrete Cancel call. -/
theorem withdraw_independent_of_signer_flags_witness :
    process_withdraw fpa0
      [acctTemp, acctMain, acctRecv, acctEscrow, acctTokenProg, acctPda] 5 77 =
    process_withdraw fpa0
      [{ acctTemp with is_signer := true }, { acctMain with is_signer := true },
       acctRecv, acctEscrow, { acctTokenProg with is_signer := true }, acctPda] 5 77 :=
  withdraw_independent_of_signer_flags fpa0 5 77 (by repeat' constructor)

/-- C5. Cancel/Withdraw never compares the supplied receive account with
the receive_account_identity stored in the record: with the holding and
initializer accounts matching the record, the handler succeeds for an
arbitrary receive account (nothing here constrains recv), transfers the
full held balance to that account, and in particular does not fail with
InvalidAccountData for a mismatched receive account. -/
theorem withdraw_ignores_receive_identity (fpa : Fpa)
    (temp initMain recv escrowA tokProg pdaAcct : AccountInfo)
    (rest : List AccountInfo) (amt pid : Nat) (tok : TokenAccount) (e : Escrow)
    (htd : temp.data = .token tok) (hed : escrowA.data = .escrow e)
    (hinit : e.is_initialized = true)
    (h1 : e.temp_token_account_pubkey = temp.key)
    (h2 : e.initializer_pubkey = initMain.key)
    (htp : tokProg.key = splTokenId)
    (hov : initMain.lamports + escrowA.lamports ≤ U64_MAX) :
    process_withdraw fpa ([temp, initMain, recv, escrowA, tokProg, pdaAcct] ++ rest) amt pid =
      .ok { pda := (fpa [escrowSeed] pid).1
            cpis := [{ ix := .transfer temp.key recv.key (fpa [escrowSeed] pid).1
                         [(fpa [escrowSeed] pid).1] tok.amount,
                       signer_seeds := [escrowSeed, [(fpa [escrowSeed] pid).2]] },
                     { ix := .close_account temp.key initMain.key (fpa [escrowSeed] pid).1
                         [(fpa [escrowSeed] pid).1],
                       signer_seeds := [escrowSeed, [(fpa [escrowSeed] pid).2]] }]
            initializer_lamports := initMain.lamports + escrowA.lamports
            escrow_lamports := 0
            escrow_data_len := 0 } ∧
    process_withdraw fpa ([temp, initMain, recv, escrowA, tokProg, pdaAcct] ++ rest) amt pid ≠
      .error .InvalidAccountData := by
  have hok := withdraw_ok_spec fpa temp initMain recv escrowA tokProg pdaAcct rest amt pid
    tok e htd hed hinit h1 h2 htp hov
  refine ⟨hok, ?_⟩
  rw [hok]
  simp

/-- C5 witness: a Cancel call whose receive account key 31 differs from
the stored receive identity 30 still succeeds and transfers the 100 held
tokens to account 31. -/
theorem withdraw_ignores_receive_identity_witness :
    acctRecv.key ≠ esc0.initializer_token_to_receive_account_pubkey ∧
    (process_withdraw fpa0
        ([acctTemp, acctMain, acctRecv, acctEscrow, acctTokenProg, acctPda] ++ []) 5 77 =
      .ok { pda := 1077
            cpis := [{ ix := .transfer 20 31 1077 [1077] 100,
                       signer_seeds := [escrowSeed, [254]] },
                     { ix := .close_account 20 10 1077 [1077],
                       signer_seeds := [escrowSeed, [254]] }]
            initializer_lamports := 1005
            escrow_lamports := 0
            escrow_data_len := 0 } ∧
    process_withdraw fpa0
        ([acctTemp, acctMain, acctRecv, acctEscrow, acctTokenProg, acctPda] ++ []) 5 77 ≠
      .error .InvalidAccountData) :=
  ⟨by decide,
   withdraw_ignores_receive_identity fpa0 acctTemp acctMain acctRecv acctEscrow
     acctTokenProg acctPda [] 5 77 tok0 esc0 rfl rfl rfl rfl rfl rfl (by decide)⟩

/-- C6. Init succeeds at most once per record: when the record in the
escrow account storage is already initialized, process_init_escrow fails
with AccountAlreadyInitialized (the failure happens before any write, so
the record is left unchanged: an erroring attempt performs no writes in
this model, mirroring the all-or-nothing host execution). The other
preconditions (signer, receive account ownership, rent exemption) are
assumed so the run reaches the initialized check. -/
theorem init_rejects_already_initialized (fpa : Fpa)
    (initializer temp recv escrowA rentA tokProg : AccountInfo)
    (rest : List AccountInfo) (amount pid : Nat) (r : Rent) (e : Escrow)
    (hs : initializer.is_signer = true)
    (hro : recv.owner = splTokenId)
    (hrd : rentA.data = .rent r)
    (hex : r.is_exempt escrowA.lamports escrowA.dataLen = true)
    (hed : escrowA.data = .escrow e)
    (hinit : e.is_initialized = true) :
    process_init_escrow fpa ([initializer, temp, recv, escrowA, rentA, tokProg] ++ rest)
      amount pid = .error .AccountAlreadyInitialized := by
  simp [process_init_escrow, next_account_info, Rent.from_account_info,
        Escrow.unpack_unchecked, hs, hro, hrd, hex, hed, hinit]

/-- C6 witness: a second Init on the concrete active record fails with
AccountAlreadyInitialized. -/
theorem init_rejects_already_initialized_witness :
    process_init_escrow fpa0
      ([acctInit, acctTemp, acctRecv, acctEscrow, acctRent, acctTokenProg] ++ []) 9 77 =
      .error .AccountAlreadyInitialized :=
  init_rejects_already_initialized fpa0 acctInit acctTemp acctRecv acctEscrow acctRent
    acctTokenProg [] 9 77 rent0 esc0 rfl rfl rfl rfl rfl rfl

/-- C7. Both Exchange and Cancel fail with InvalidAccountData when the
supplied holding account key differs from the stored
temp_token_account_pubkey or the supplied initializer account key differs
from the stored initializer_pubkey, and when both match neither handler
can return InvalidAccountData, so execution passes this validation exactly
when both identities match. -/
theorem exchange_and_cancel_identity_validation (fpa : Fpa)
    (taker sending temp initMain recv escrowA tokProgD tokProgW pdaAcct : AccountInfo)
    (restD restW : List AccountInfo) (amtD amtW pid : Nat) (tok : TokenAccount) (e : Escrow)
    (hts : taker.is_signer = true)
    (htd : temp.data = .token tok) (hed : escrowA.data = .escrow e)
    (hinit : e.is_initialized = true) :
    ((e.temp_token_account_pubkey ≠ temp.key ∨ e.initializer_pubkey ≠ initMain.key) →
      process_deposit fpa ([taker, sending, temp, initMain, escrowA, tokProgD] ++ restD)
          amtD pid = .error .InvalidAccountData ∧
      process_withdraw fpa ([temp, initMain, recv, escrowA, tokProgW, pdaAcct] ++ restW)
          amtW pid = .error .InvalidAccountData) ∧
    (e.temp_token_account_pubkey = temp.key → e.initializer_pubkey = initMain.key →
      process_deposit fpa ([taker, sending, temp, initMain, escrowA, tokProgD] ++ restD)
          amtD pid ≠ .error .InvalidAccountData ∧
      process_withdraw fpa ([temp, initMain, recv, escrowA, tokProgW, pdaAcct] ++ restW)
          amtW pid ≠ .error .InvalidAccountData) := by
  constructor
  · intro hmis
    exact ⟨deposit_mismatch_spec fpa taker sending temp initMain escrowA tokProgD restD
             amtD pid tok e hts htd hed hinit hmis,
           withdraw_mismatch_spec fpa temp initMain recv escrowA tokProgW pdaAcct restW
             amtW pid tok e htd hed hinit hmis⟩
  · intro h1 h2
    exact ⟨deposit_match_no_iad fpa taker sending temp initMain escrowA tokProgD restD
             amtD pid tok e hts htd hed hinit h1 h2,
           withdraw_match_no_iad fpa temp initMain recv escrowA tokProgW pdaAcct restW
             amtW pid tok e htd hed hinit h1 h2⟩

/-- C7 witness: against a record whose stored initializer identity is 11,
supplying initializer account 10 makes both Exchange and Cancel fail with
InvalidAccountData. -/
theorem exchange_and_cancel_identity_validation_witness :
    process_deposit fpa0
      ([acctTaker, acctTakerSend, acctTemp, acctMain, acctEscrow1, acctTokenProg] ++ [])
      50 77 = .error .InvalidAccountData ∧
    process_withdraw fpa0
      ([acctTemp, acctMain, acctRecv, acctEscrow1, acctTokenProg, acctPda] ++ []) 5 77 =
      .error .InvalidAccountData :=
  (exchange_and_cancel_identity_validation fpa0 acctTaker acctTakerSend acctTemp acctMain
      acctRecv acctEscrow1 acctTokenProg acctTokenProg acctPda [] [] 50 5 77 tok0 esc1
      rfl rfl rfl rfl).1 (Or.inr (by decide))

/-- C8. Cancel/Withdraw transfers exactly the full current token balance
of the holding account (tok.amount, read from the account, appears as the
transfer amount) and the instruction payload amount has no effect: two
calls differing only in the payload produce identical results, for every
input whatsoever. -/
theorem withdraw_full_balance_payload_ignored (fpa : Fpa) (accounts : List AccountInfo)
    (amt1 amt2 pid : Nat) (temp initMain recv escrowA tokProg pdaAcct : AccountInfo)
    (rest : List AccountInfo) (tok : TokenAccount) (e : Escrow)
    (htd : temp.data = .token tok) (hed : escrowA.data = .escrow e)
    (hinit : e.is_initialized = true)
    (h1 : e.temp_token_account_pubkey = temp.key)
    (h2 : e.initializer_pubkey = initMain.key)
    (htp : tokProg.key = splTokenId)
    (hov : initMain.lamports + escrowA.lamports ≤ U64_MAX) :
    process_withdraw fpa accounts amt1 pid = process_withdraw fpa accounts amt2 pid ∧
    process_withdraw fpa ([temp, initMain, recv, escrowA, tokProg, pdaAcct] ++ rest)
        amt1 pid =
      .ok { pda := (fpa [escrowSeed] pid).1
            cpis := [{ ix := .transfer temp.key recv.key (fpa [escrowSeed] pid).1
                         [(fpa [escrowSeed] pid).1] tok.amount,
                       signer_seeds := [escrowSeed, [(fpa [escrowSeed] pid).2]] },
                     { ix := .close_account temp.key initMain.key (fpa [escrowSeed] pid).1
                         [(fpa [escrowSeed] pid).1],
                       signer_seeds := [escrowSeed, [(fpa [escrowSeed] pid).2]] }]
            initializer_lamports := initMain.lamports + escrowA.lamports
            escrow_lamports := 0
            escrow_data_len := 0 } :=
  ⟨rfl, withdraw_ok_spec fpa temp initMain recv escrowA tokProg pdaAcct rest amt1 pid
    tok e htd hed hinit h1 h2 htp hov⟩

/-- C8 witness: payload amounts 123456 and 0 give the same result, and the
concrete run transfers 100, the full held balance, not the payload. -/
theorem withdraw_full_balance_payload_ignored_witness :
    (process_withdraw fpa0
        [acctTemp, acctMain, acctRecv, acctEscrow, acctTokenProg, acctPda] 123456 77 =
      process_withdraw fpa0
        [acctTemp, acctMain, acctRecv, acctEscrow, acctTokenProg, acctPda] 0 77) ∧
    process_withdraw fpa0
        ([acctTemp, acctMain, acctRecv, acctEscrow, acctTokenProg, acctPda] ++ [])
        123456 77 =
      .ok { pda := 1077
            cpis := [{ ix := .transfer 20 31 1077 [1077] 100,
                       signer_seeds := [escrowSeed, [254]] },
                     { ix := .close_account 20 10 1077 [1077],
                       signer_seeds := [escrowSeed, [254]] }]
            initializer_lamports := 1005
            escrow_lamports := 0
            escrow_data_len := 0 } :=
  withdraw_full_balance_payload_ignored fpa0
    [acctTemp, acctMain, acctRecv, acctEscrow, acctTokenProg, acctPda] 123456 0 77
    acctTemp acctMain acctRecv acctEscrow acctTokenProg acctPda [] tok0 esc0
    rfl rfl rfl rfl rfl rfl (by decide)

/-- C9. Closing the escrow record in Cancel uses overflow-checked u64
addition: when the initializer balance plus the record balance exceeds
U64_MAX the handler fails with AmountOverflow and applies no balance
change (an erroring attempt performs no writes in this model); otherwise
the initializer ends with exactly the sum, the record balance becomes 0
and its data length becomes 0. -/
theorem withdraw_close_uses_checked_add (fpa : Fpa)
    (temp initMain recv escrowA tokProg pdaAcct : AccountInfo)
    (rest : List AccountInfo) (amt pid : Nat) (tok : TokenAccount) (e : Escrow)
    (htd : temp.data = .token tok) (hed : escrowA.data = .escrow e)
    (hinit : e.is_initialized = true)
    (h1 : e.temp_token_account_pubkey = temp.key)
    (h2 : e.initializer_pubkey = initMain.key)
    (htp : tokProg.key = splTokenId) :
    (U64_MAX < initMain.lamports + escrowA.lamports →
      process_withdraw fpa ([temp, initMain, recv, escrowA, tokProg, pdaAcct] ++ rest)
        amt pid = .error .AmountOverflow) ∧
    (initMain.lamports + escrowA.lamports ≤ U64_MAX →
      process_withdraw fpa ([temp, initMain, recv, escrowA, tokProg, pdaAcct] ++ rest)
        amt pid =
      .ok { pda := (fpa [escrowSeed] pid).1
            cpis := [{ ix := .transfer temp.key recv.key (fpa [escrowSeed] pid).1
                         [(fpa [escrowSeed] pid).1] tok.amount,
                       signer_seeds := [escrowSeed, [(fpa [escrowSeed] pid).2]] },
                     { ix := .close_account temp.key initMain.key (fpa [escrowSeed] pid).1
                         [(fpa [escrowSeed] pid).1],
                       signer_seeds := [escrowSeed, [(fpa [escrowSeed] pid).2]] }]
            initializer_lamports := initMain.lamports + escrowA.lamports
            escrow_lamports := 0
            escrow_data_len := 0 }) :=
  ⟨fun hov => withdraw_overflow_spec fpa temp initMain recv escrowA tokProg pdaAcct rest
      amt pid tok e htd hed hinit h1 h2 htp hov,
   fun hov => withdraw_ok_spec fpa temp initMain recv escrowA tokProg pdaAcct rest
      amt pid tok e htd hed hinit h1 h2 htp hov⟩

/-- C9 witness: with the initializer at U64_MAX lamports the close fails
with AmountOverflow; with 1000 lamports it succeeds and the initializer
ends with 1000 plus the record balance 5. -/
theorem withdraw_close_uses_checked_add_witness :
    process_withdraw fpa0
        ([acctTemp, acctMainBig, acctRecv, acctEscrow, acctTokenProg, acctPda] ++ [])
        5 77 = .error .AmountOverflow ∧
    process_withdraw fpa0
        ([acctTemp, acctMain, acctRecv, acctEscrow, acctTokenProg, acctPda] ++ [])
        5 77 =
      .ok { pda := 1077
            cpis := [{ ix := .transfer 20 31 1077 [1077] 100,
                       signer_seeds := [escrowSeed, [254]] },
                     { ix := .close_account 20 10 1077 [1077],
                       signer_seeds := [escrowSeed, [254]] }]
            initializer_lamports := 1005
            escrow_lamports := 0
            escrow_data_len := 0 } :=
  ⟨(withdraw_close_uses_checked_add fpa0 acctTemp acctMainBig acctRecv acctEscrow
      acctTokenProg acctPda [] 5 77 tok0 esc0 rfl rfl rfl rfl rfl rfl).1 (by decide),
   (withdraw_close_uses_checked_add fpa0 acctTemp acctMain acctRecv acctEscrow
      acctTokenProg acctPda [] 5 77 tok0 esc0 rfl rfl rfl rfl rfl rfl).2 (by decide)⟩

/-- C10. All three handlers derive the program-controlled address by the
one computation fpa [escrowSeed] pid from the fixed seed and the program
id alone: every successful run of Init, Exchange and Cancel carries
exactly that address, for every account list, amount and derivation
function, so the derived address agrees across the three handlers and
depends on no escrow-specific data. -/
theorem pda_derivation_uniform :
    (∀ (fpa : Fpa) (accounts : List AccountInfo) (amount pid : Nat) (r : InitResult),
      process_init_escrow fpa accounts amount pid = .ok r →
        r.pda = (fpa [escrowSeed] pid).1) ∧
    (∀ (fpa : Fpa) (accounts : List AccountInfo) (amount pid : Nat) (r : DepositResult),
      process_deposit fpa accounts amount pid = .ok r →
        r.pda = (fpa [escrowSeed] pid).1) ∧
    (∀ (fpa : Fpa) (accounts : List AccountInfo) (amount pid : Nat) (r : WithdrawResult),
      process_withdraw fpa accounts amount pid = .ok r →
        r.pda = (fpa [escrowSeed] pid).1) :=
  ⟨fun fpa accounts amount pid r h => init_pda_any fpa accounts amount pid r h,
   fun fpa accounts amount pid r h => deposit_pda_any fpa accounts amount pid r h,
   fun fpa accounts amount pid r h => withdraw_pda_any fpa accounts amount pid r h⟩

/-- The result of the concrete Init run used by the C10 witness. -/
def initRes0 : InitResult :=
  { escrow_written :=
      { is_initialized := true
        initializer_pubkey := 10
        temp_token_account_pubkey := 20
        initializer_token_to_receive_account_pubkey := 31
        expected_amount := 9 }
    pda := 1077
    cpis := [{ ix := .set_authority 20 (some 1077) 10 [10], signer_seeds := [] }] }

/-- The result of the concrete Exchange run used by the C10 witness. -/
def depRes0 : DepositResult :=
  { pda := 1077, nonce := 254,
    cpis := [{ ix := .transfer 61 20 60 [60] 50, signer_seeds := [] }] }

/-- The result of the concrete Cancel run used by the C10 witness. -/
def wRes0 : WithdrawResult :=
  { pda := 1077
    cpis := [{ ix := .transfer 20 31 1077 [1077] 100, signer_seeds := [escrowSeed, [254]] },
             { ix := .close_account 20 10 1077 [1077], signer_seeds := [escrowSeed, [254]] }]
    initializer_lamports := 1005
    escrow_lamports := 0
    escrow_data_len := 0 }

/-- C10 witness: concrete successful runs of the three handlers all carry
the address fpa0 derives from the escrow seed and program id 77. -/
theorem pda_derivation_uniform_witness :
    initRes0.pda = (fpa0 [escrowSeed] 77).1 ∧
    depRes0.pda = (fpa0 [escrowSeed] 77).1 ∧
    wRes0.pda = (fpa0 [escrowSeed] 77).1 :=
  ⟨pda_derivation_uniform.1 fpa0
      [acctInit, acctTemp, acctRecv, acctEscrowU, acctRent, acctTokenProg] 9 77
      initRes0 rfl,
   pda_derivation_uniform.2.1 fpa0
      [acctTaker, acctTakerSend, acctTemp, acctMain, acctEscrow, acctTokenProg] 50 77
      depRes0 rfl,
   pda_derivation_uniform.2.2 fpa0
      [acctTemp, acctMain, acctRecv, acctEscrow, acctTokenProg, acctPda] 5 77
      wRes0 rfl⟩
